import Mathlib

/-!
Verification of the realtime feed connection manager of LinkScopes
(frontend/src/hooks/useWebSocket.ts) and the scan-trigger refresh schedule
(frontend/src/App.tsx), as a shallow embedding.

The hook's mutable refs and React state become fields of a `World` record,
together with an explicit environment: the set of sockets ever created with
their ready states, the multiset of pending retry timers (JS `setTimeout`
handles), the pending per-socket connection-establish timers, and a count of
fallback HTTP fetches.  Each event handler of the source (connect, onopen,
onmessage, onclose, the retry-timer callback, the periodic check tick,
requestUpdate, and the unmount cleanup) becomes a step function on `World`.
Network outcomes (the health probe result, the fallback fetch result, inbound
payloads, close codes) are parameters of the corresponding events.
-/

namespace LinkScope

/-- JSON values, the shape of payloads arriving on the stream
(`JSON.parse(event.data)` in the source). -/
inductive Json where
  | null : Json
  | bool (b : Bool) : Json
  | num (n : Int) : Json
  | str (s : String) : Json
  | arr (xs : List Json) : Json
  | obj (fields : List (String × Json)) : Json

/-- Ready states of a WebSocket.  `closingWith` records the code and reason
passed to a locally initiated `close(code, reason)`. -/
inductive SockState where
  | connecting : SockState
  | opened : SockState
  | closingWith (code : Nat) (reason : String) : SockState
  | closed : SockState
deriving DecidableEq

/-- `maxReconnectAttempts = isDevelopment ? 10 : 5` (useWebSocket.ts line 16). -/
def maxReconnectAttempts (dev : Bool) : Nat := if dev then 10 else 5

/-- `initialReconnectDelay = isDevelopment ? 2000 : 1000` (line 17). -/
def initialReconnectDelay (dev : Bool) : Nat := if dev then 2000 else 1000

/-- `maxReconnectDelay = 30000` (line 18). -/
def maxReconnectDelay : Nat := 30000

/-- The delay computed at both retry-scheduling sites (lines 82-85 and
176-179): `Math.min(initialReconnectDelay * Math.pow(2, attempts),
maxReconnectDelay)`. -/
def backoffDelay (dev : Bool) (attempts : Nat) : Nat :=
  min (initialReconnectDelay dev * 2 ^ attempts) maxReconnectDelay

/-- The whole mutable state of one mounted `useWebSocket` hook instance plus
its timer/socket environment. -/
structure World where
  /-- React state `devices` (line 10). -/
  devices : List Json
  /-- React state `connected` (line 11). -/
  connected : Bool
  /-- `socketRef.current`, by socket id (line 12). -/
  socketRef : Option Nat
  /-- `reconnectTimeoutRef.current`, a timer id (line 13). -/
  reconnectTimeoutRef : Option Nat
  /-- `reconnectAttemptsRef.current` (line 14). -/
  reconnectAttempts : Nat
  /-- `isComponentMountedRef.current` (line 15). -/
  isComponentMounted : Bool
  /-- whether the 15 s periodic `checkInterval` (lines 246-251) is installed. -/
  checkIntervalActive : Bool
  /-- every socket ever constructed, id paired with its current ready state. -/
  sockets : List (Nat × SockState)
  /-- pending retry timers: `(timer id, delay in ms)`. -/
  retryTimers : List (Nat × Nat)
  /-- socket ids whose 10 s connection-establish timeout (line 120) is pending. -/
  connTimeouts : List Nat
  /-- number of times `fetchDevicesWithFallback` performed an HTTP fetch. -/
  fallbackFetches : Nat
  /-- messages sent, as `(socket id, text)`. -/
  sent : List (Nat × String)
  /-- next fresh socket id. -/
  nextSockId : Nat
  /-- next fresh timer id. -/
  nextTimerId : Nat

/-- Ready state of a socket id; a socket absent from the environment counts
as closed. -/
def sockStateOf (w : World) (sid : Nat) : SockState :=
  match w.sockets.lookup sid with
  | some st => st
  | none => SockState.closed

/-- Replace the ready state of socket `sid`. -/
def setSockState (w : World) (sid : Nat) (st : SockState) : World :=
  { w with sockets := w.sockets.map (fun p => if p.1 = sid then (sid, st) else p) }

/-- `ws.close(code, reason)` on socket `sid`. -/
def closeSocket (w : World) (sid : Nat) (code : Nat) (reason : String) : World :=
  setSockState w sid (SockState.closingWith code reason)

/-- Lines 56-59 of `connect`: if a retry timer handle is stored, clear that
timer and null the handle. -/
def clearRetryTimer (w : World) : World :=
  match w.reconnectTimeoutRef with
  | some tid =>
      { w with retryTimers := w.retryTimers.filter (fun p => p.1 != tid),
               reconnectTimeoutRef := none }
  | none => w

/-- Lines 89-92 / 183-186: `window.setTimeout` of the retry callback, storing
the fresh handle in `reconnectTimeoutRef`. -/
def scheduleRetry (w : World) (delay : Nat) : World :=
  { w with retryTimers := w.retryTimers ++ [(w.nextTimerId, delay)],
           reconnectTimeoutRef := some w.nextTimerId,
           nextTimerId := w.nextTimerId + 1 }

/-- `fetchDevicesWithFallback` (lines 41-52): when mounted, performs one HTTP
fetch; `result` is the outcome of `fetchDevices()` (`none` = the request
threw).  On success the device list is replaced. -/
def fetchFallback (result : Option (List Json)) (w : World) : World :=
  if w.isComponentMounted then
    match result with
    | some ds => { w with fallbackFetches := w.fallbackFetches + 1, devices := ds }
    | none => { w with fallbackFetches := w.fallbackFetches + 1 }
  else w

/-- `new WebSocket(...)` plus the 10 s connection timeout (lines 116-125):
a fresh socket in the connecting state is stored in `socketRef` and its
establish timer armed. -/
def mkSocket (w : World) : World :=
  { w with sockets := w.sockets ++ [(w.nextSockId, SockState.connecting)],
           socketRef := some w.nextSockId,
           connTimeouts := w.connTimeouts ++ [w.nextSockId],
           nextSockId := w.nextSockId + 1 }

/-- Whether `socketRef.current && socketRef.current.readyState === OPEN`
(line 65 / line 206). -/
def sockRefOpen (w : World) : Bool :=
  match w.socketRef with
  | some sid => sockStateOf w sid == SockState.opened
  | none => false

/-- Whether `!socketRef.current || socketRef.current.readyState === CLOSED`
(line 212), the condition under which `requestUpdate` re-invokes `connect`. -/
def sockRefClosedOrAbsent (w : World) : Bool :=
  match w.socketRef with
  | some sid => sockStateOf w sid == SockState.closed
  | none => true

/-- Lines 81-93 of `connect`: schedule a retry (with the backoff delay for the
current counter) only when the counter is strictly below the maximum and the
component is still mounted. -/
def connectSched (dev : Bool) (w2 : World) : World :=
  if w2.reconnectAttempts < maxReconnectAttempts dev then
    if w2.isComponentMounted then scheduleRetry w2 (backoffDelay dev w2.reconnectAttempts)
    else w2
  else w2

/-- Lines 74-96 of `connect` (the unhealthy-probe branch): when the counter
has reached the maximum, perform the HTTP fallback fetch; then the retry
scheduling step. -/
def connectUnhealthy (dev : Bool) (fb : Option (List Json)) (w1 : World) : World :=
  connectSched dev
    (if maxReconnectAttempts dev ≤ w1.reconnectAttempts then fetchFallback fb w1 else w1)

/-- Lines 99-112 of `connect`: an existing socket is closed (code 1000,
"Reconnecting") only when it is OPEN; in any other state the reference is
merely dropped without closing the socket. -/
def connectDropExisting (w1 : World) : World :=
  match w1.socketRef with
  | some sid =>
      if sockStateOf w1 sid = SockState.opened then
        closeSocket w1 sid 1000 "Reconnecting"
      else { w1 with socketRef := none }
  | none => w1

/-- One complete run of `connect` (lines 54-203), with the resolved value of
`checkServerHealth()` given as `probe` and the outcome of a fallback fetch
(if one happens) given as `fb`: clear any stored retry timer, stop if
unmounted or already open, then either the unhealthy branch or drop-and-open
a fresh socket with its establish timer. -/
def connectEvent (dev : Bool) (probe : Bool) (fb : Option (List Json)) (w : World) : World :=
  let w1 := clearRetryTimer w
  if w1.isComponentMounted = false then w1
  else if sockRefOpen w1 then w1
  else if probe = false then connectUnhealthy dev fb w1
  else mkSocket (connectDropExisting w1)

/-- `ws.onopen` firing on socket `sid` (lines 127-142): the socket reaches
the open state, its establish timer is cleared; if unmounted the socket is
closed with the intentional marker, otherwise `connected` is set, the retry
counter reset, and `get_devices` sent. -/
def onOpen (sid : Nat) (w : World) : World :=
  let w1 := setSockState w sid SockState.opened
  let w2 := { w1 with connTimeouts := w1.connTimeouts.filter (fun i => i != sid) }
  if w2.isComponentMounted = false then
    closeSocket w2 sid 1000 "Component unmounted"
  else
    { w2 with connected := true,
              reconnectAttempts := 0,
              sent := w2.sent ++ [(sid, "get_devices")] }

/-- `ws.onmessage` (lines 144-157): `payload` is the result of
`JSON.parse(event.data)` (`none` = the parse threw).  Only a JSON array is
applied to the device list; anything else is a no-op. -/
def onMessage (payload : Option Json) (w : World) : World :=
  if w.isComponentMounted = false then w
  else
    match payload with
    | some (Json.arr ds) => { w with devices := ds }
    | some _ => w
    | none => w

/-- `ws.onclose` firing on socket `sid` with the given close code and reason
(lines 159-191), with `fb` the outcome of a fallback fetch if one happens. -/
def onClose (dev : Bool) (sid : Nat) (code : Nat) (reason : String)
    (fb : Option (List Json)) (w : World) : World :=
  let w1 := setSockState w sid SockState.closed
  let w2 := { w1 with connTimeouts := w1.connTimeouts.filter (fun i => i != sid) }
  if w2.isComponentMounted = false then w2
  else
    let w3 := { w2 with connected := false, socketRef := none }
    if code = 1000 ∧ reason = "Component unmounted" then w3
    else if w3.reconnectAttempts < maxReconnectAttempts dev then
      scheduleRetry w3 (backoffDelay dev w3.reconnectAttempts)
    else
      fetchFallback fb w3

/-- A pending retry timer `tid` fires (the callback of lines 89-92 / 183-186):
the timer leaves the pending set, the retry counter is incremented, and
`connect()` runs. -/
def fireRetry (dev : Bool) (tid : Nat) (probe : Bool) (fb : Option (List Json))
    (w : World) : World :=
  if w.retryTimers.any (fun p => p.1 == tid) then
    let w1 := { w with retryTimers := w.retryTimers.filter (fun p => p.1 != tid) }
    let w2 := { w1 with reconnectAttempts := w1.reconnectAttempts + 1 }
    connectEvent dev probe fb w2
  else w

/-- One tick of the 15 s periodic check (lines 246-251): `connect()` runs only
when not connected, the retry counter is strictly below the maximum, and the
component is mounted. -/
def periodicTick (dev : Bool) (probe : Bool) (fb : Option (List Json)) (w : World) : World :=
  if w.checkIntervalActive = false then w
  else if w.connected then w
  else if w.reconnectAttempts < maxReconnectAttempts dev then
    if w.isComponentMounted then connectEvent dev probe fb w else w
  else w

/-- Result of a `requestUpdate()` call: the returned boolean, whether
`connect()` was invoked, and the post-state. -/
structure UpdateOutcome where
  result : Bool
  connectCalled : Bool
  world : World

/-- `requestUpdate` (lines 205-217): send and return `true` when the current
socket is open; otherwise return `false`, invoking `connect()` only when there
is no socket or the socket is CLOSED. -/
def requestUpdate (dev : Bool) (probe : Bool) (fb : Option (List Json))
    (w : World) : UpdateOutcome :=
  match w.socketRef with
  | some sid =>
      if sockStateOf w sid = SockState.opened then
        { result := true, connectCalled := false,
          world := { w with sent := w.sent ++ [(sid, "get_devices")] } }
      else if sockStateOf w sid = SockState.closed then
        { result := false, connectCalled := true,
          world := connectEvent dev probe fb w }
      else
        { result := false, connectCalled := false, world := w }
  | none =>
      { result := false, connectCalled := true,
        world := connectEvent dev probe fb w }

/-- The unmount cleanup (lines 225-240) together with the periodic-check
effect cleanup (line 253): unset the mounted flag, clear the stored retry
timer, close the current socket with the intentional marker only when it is
open, null the socket ref, and stop the interval. -/
def cleanup (w : World) : World :=
  let w1 := { w with isComponentMounted := false }
  let w2 := clearRetryTimer w1
  let w3 :=
    match w2.socketRef with
    | some sid =>
        let wc := if sockStateOf w2 sid = SockState.opened then
                    closeSocket w2 sid 1000 "Component unmounted"
                  else w2
        { wc with socketRef := none }
    | none => w2
  { w3 with checkIntervalActive := false }

/-- The state right after mount, before the initial `connect()` call. -/
def initWorld : World :=
  { devices := [], connected := false, socketRef := none,
    reconnectTimeoutRef := none, reconnectAttempts := 0,
    isComponentMounted := true, checkIntervalActive := true,
    sockets := [], retryTimers := [], connTimeouts := [],
    fallbackFetches := 0, sent := [], nextSockId := 0, nextTimerId := 0 }

/-- `handleScan`'s nested `setTimeout` chain in App.tsx (lines 50-65): each
node waits `delay` ms, performs one `requestUpdate()`, then runs the inner
chain. -/
inductive TimerProg where
  | done : TimerProg
  | timeout (delay : Nat) (inner : TimerProg) : TimerProg

/-- The refresh schedule `handleScan` installs after a successful
`triggerScan`: 1000 ms, then 2000 ms, then 3000 ms, nested. -/
def handleScanProg : TimerProg :=
  TimerProg.timeout 1000 (TimerProg.timeout 2000 (TimerProg.timeout 3000 TimerProg.done))

/-- Absolute times (relative to the trigger, at time `t`) at which a nested
timeout chain performs its `requestUpdate()` calls. -/
def fireTimes : TimerProg → Nat → List Nat
  | TimerProg.done, _ => []
  | TimerProg.timeout d p, t => (t + d) :: fireTimes p (t + d)

/-! ### Concrete reachable states used by several claims -/

/-- State after the initial mount `connect()` when the health probe succeeds:
one socket, id 0, still CONNECTING, with its establish timer armed. -/
def wConnecting : World := connectEvent false true none initWorld

/-- State after mount with the probe failing at every attempt (production
profile): the counter has hit the maximum 5, the single fallback fetch has
happened, and no retry timer is pending. -/
def wFallback : World :=
  fireRetry false 4 false none (fireRetry false 3 false none (fireRetry false 2 false none
    (fireRetry false 1 false none (fireRetry false 0 false none
      (connectEvent false false none initWorld)))))

/-- Reachable state with two pending retry timers: the mount `connect()` opens
a socket, a periodic tick re-runs `connect()` against a now-unhealthy server
and schedules timer 0, then the still-CONNECTING socket closes and `onclose`
schedules timer 1 without cancelling timer 0. -/
def w8twoTimers : World :=
  onClose false 0 1006 "" none
    (periodicTick false false none (connectEvent false true none initWorld))

/-- State with a stored retry-timer handle (timer 0 pending). -/
def wHandle : World := connectEvent false false none initWorld

/-- Two failed attempts: the retry counter reads 2 and the second retry's
`connect()` found the server healthy, so socket 0 is CONNECTING. -/
def c3failTwice : World :=
  fireRetry false 1 true none (fireRetry false 0 false none (connectEvent false false none initWorld))

/-- ... then the connection succeeds. -/
def c3afterOpen : World := onOpen 0 c3failTwice

/-- ... then the stream closes unexpectedly and the scheduled retry fires. -/
def c3afterThirdFail : World :=
  fireRetry false 2 false none (onClose false 0 1006 "" none c3afterOpen)

/-- Reachable state whose retry counter exceeds the configured maximum: four
failures, then three sockets opened by ticks, then three stale `onclose`
events each scheduling an uncancelled timer at counter 4, then two of those
timers fire. -/
def w10overflow : World :=
  fireRetry false 5 false none (fireRetry false 4 false none
    (onClose false 2 1006 "" none (onClose false 1 1006 "" none (onClose false 0 1006 "" none
      (periodicTick false true none (periodicTick false true none
        (fireRetry false 3 true none (fireRetry false 2 false none (fireRetry false 1 false none
          (fireRetry false 0 false none (connectEvent false false none initWorld)))))))))))

/-! ### Projection lemmas for the primitive operations -/

@[simp] theorem clearRetryTimer_sent (w : World) : (clearRetryTimer w).sent = w.sent := by
  cases h : w.reconnectTimeoutRef <;> simp [clearRetryTimer, h]

@[simp] theorem clearRetryTimer_attempts (w : World) :
    (clearRetryTimer w).reconnectAttempts = w.reconnectAttempts := by
  cases h : w.reconnectTimeoutRef <;> simp [clearRetryTimer, h]

@[simp] theorem clearRetryTimer_mounted (w : World) :
    (clearRetryTimer w).isComponentMounted = w.isComponentMounted := by
  cases h : w.reconnectTimeoutRef <;> simp [clearRetryTimer, h]

@[simp] theorem clearRetryTimer_nextTimerId (w : World) :
    (clearRetryTimer w).nextTimerId = w.nextTimerId := by
  cases h : w.reconnectTimeoutRef <;> simp [clearRetryTimer, h]

@[simp] theorem clearRetryTimer_sockets (w : World) :
    (clearRetryTimer w).sockets = w.sockets := by
  cases h : w.reconnectTimeoutRef <;> simp [clearRetryTimer, h]

@[simp] theorem clearRetryTimer_socketRef (w : World) :
    (clearRetryTimer w).socketRef = w.socketRef := by
  cases h : w.reconnectTimeoutRef <;> simp [clearRetryTimer, h]

theorem clearRetryTimer_timers_le (w : World) :
    (clearRetryTimer w).retryTimers.length ≤ w.retryTimers.length := by
  cases h : w.reconnectTimeoutRef <;> simp [clearRetryTimer, h, List.length_filter_le]

@[simp] theorem scheduleRetry_sent (w : World) (d : Nat) :
    (scheduleRetry w d).sent = w.sent := rfl

@[simp] theorem scheduleRetry_attempts (w : World) (d : Nat) :
    (scheduleRetry w d).reconnectAttempts = w.reconnectAttempts := rfl

@[simp] theorem scheduleRetry_timers (w : World) (d : Nat) :
    (scheduleRetry w d).retryTimers = w.retryTimers ++ [(w.nextTimerId, d)] := rfl

@[simp] theorem fetchFallback_sent (fb : Option (List Json)) (w : World) :
    (fetchFallback fb w).sent = w.sent := by
  unfold fetchFallback; split <;> (try split) <;> rfl

@[simp] theorem fetchFallback_attempts (fb : Option (List Json)) (w : World) :
    (fetchFallback fb w).reconnectAttempts = w.reconnectAttempts := by
  unfold fetchFallback; split <;> (try split) <;> rfl

@[simp] theorem fetchFallback_timers (fb : Option (List Json)) (w : World) :
    (fetchFallback fb w).retryTimers = w.retryTimers := by
  unfold fetchFallback; split <;> (try split) <;> rfl

@[simp] theorem fetchFallback_mounted (fb : Option (List Json)) (w : World) :
    (fetchFallback fb w).isComponentMounted = w.isComponentMounted := by
  unfold fetchFallback; split <;> (try split) <;> rfl

@[simp] theorem fetchFallback_nextTimerId (fb : Option (List Json)) (w : World) :
    (fetchFallback fb w).nextTimerId = w.nextTimerId := by
  unfold fetchFallback; split <;> (try split) <;> rfl

@[simp] theorem mkSocket_sent (w : World) : (mkSocket w).sent = w.sent := rfl

@[simp] theorem mkSocket_attempts (w : World) :
    (mkSocket w).reconnectAttempts = w.reconnectAttempts := rfl

@[simp] theorem mkSocket_timers (w : World) : (mkSocket w).retryTimers = w.retryTimers := rfl

@[simp] theorem setSockState_sent (w : World) (sid : Nat) (st : SockState) :
    (setSockState w sid st).sent = w.sent := rfl

@[simp] theorem setSockState_attempts (w : World) (sid : Nat) (st : SockState) :
    (setSockState w sid st).reconnectAttempts = w.reconnectAttempts := rfl

@[simp] theorem setSockState_timers (w : World) (sid : Nat) (st : SockState) :
    (setSockState w sid st).retryTimers = w.retryTimers := rfl

@[simp] theorem setSockState_mounted (w : World) (sid : Nat) (st : SockState) :
    (setSockState w sid st).isComponentMounted = w.isComponentMounted := rfl

@[simp] theorem closeSocket_sent (w : World) (sid code : Nat) (r : String) :
    (closeSocket w sid code r).sent = w.sent := rfl

@[simp] theorem closeSocket_attempts (w : World) (sid code : Nat) (r : String) :
    (closeSocket w sid code r).reconnectAttempts = w.reconnectAttempts := rfl

@[simp] theorem closeSocket_timers (w : World) (sid code : Nat) (r : String) :
    (closeSocket w sid code r).retryTimers = w.retryTimers := rfl

@[simp] theorem connectSched_attempts (dev : Bool) (w2 : World) :
    (connectSched dev w2).reconnectAttempts = w2.reconnectAttempts := by
  unfold connectSched
  repeat' split
  all_goals simp

@[simp] theorem connectSched_sent (dev : Bool) (w2 : World) :
    (connectSched dev w2).sent = w2.sent := by
  unfold connectSched
  repeat' split
  all_goals simp

theorem connectSched_timers_sub (dev : Bool) (w2 : World) :
    ∀ x ∈ (connectSched dev w2).retryTimers, x ∈ w2.retryTimers ∨ x.1 = w2.nextTimerId := by
  intro x hx
  unfold connectSched at hx
  repeat' split at hx
  all_goals
    first
      | exact Or.inl hx
      | (rcases List.mem_append.mp hx with hx | hx
         · exact Or.inl hx
         · rw [List.mem_singleton] at hx
           rw [hx]
           exact Or.inr rfl)

theorem connectSched_timers_of_ge (dev : Bool) (w2 : World)
    (h : maxReconnectAttempts dev ≤ w2.reconnectAttempts) :
    (connectSched dev w2).retryTimers = w2.retryTimers := by
  unfold connectSched
  rw [if_neg (by omega)]

theorem connectSched_timers_of_lt (dev : Bool) (w2 : World)
    (h1 : w2.reconnectAttempts < maxReconnectAttempts dev)
    (h2 : w2.isComponentMounted = true) :
    (connectSched dev w2).retryTimers
      = w2.retryTimers ++ [(w2.nextTimerId, backoffDelay dev w2.reconnectAttempts)] := by
  unfold connectSched
  rw [if_pos h1, if_pos h2]
  rfl

@[simp] theorem connectUnhealthy_attempts (dev : Bool) (fb : Option (List Json)) (w1 : World) :
    (connectUnhealthy dev fb w1).reconnectAttempts = w1.reconnectAttempts := by
  unfold connectUnhealthy
  split <;> simp

@[simp] theorem connectUnhealthy_sent (dev : Bool) (fb : Option (List Json)) (w1 : World) :
    (connectUnhealthy dev fb w1).sent = w1.sent := by
  unfold connectUnhealthy
  split <;> simp

theorem connectUnhealthy_timers_sub (dev : Bool) (fb : Option (List Json)) (w1 : World) :
    ∀ x ∈ (connectUnhealthy dev fb w1).retryTimers,
      x ∈ w1.retryTimers ∨ x.1 = w1.nextTimerId := by
  intro x hx
  unfold connectUnhealthy at hx
  split at hx
  · rcases connectSched_timers_sub dev _ x hx with h | h
    · rw [fetchFallback_timers] at h
      exact Or.inl h
    · rw [fetchFallback_nextTimerId] at h
      exact Or.inr h
  · exact connectSched_timers_sub dev w1 x hx

theorem connectUnhealthy_timers_of_ge (dev : Bool) (fb : Option (List Json)) (w1 : World)
    (h : maxReconnectAttempts dev ≤ w1.reconnectAttempts) :
    (connectUnhealthy dev fb w1).retryTimers = w1.retryTimers := by
  unfold connectUnhealthy
  rw [if_pos h, connectSched_timers_of_ge, fetchFallback_timers]
  rw [fetchFallback_attempts]
  exact h

@[simp] theorem connectDropExisting_attempts (w1 : World) :
    (connectDropExisting w1).reconnectAttempts = w1.reconnectAttempts := by
  unfold connectDropExisting
  repeat' split
  all_goals simp [closeSocket, setSockState]

@[simp] theorem connectDropExisting_sent (w1 : World) :
    (connectDropExisting w1).sent = w1.sent := by
  unfold connectDropExisting
  repeat' split
  all_goals simp [closeSocket, setSockState]

@[simp] theorem connectDropExisting_timers (w1 : World) :
    (connectDropExisting w1).retryTimers = w1.retryTimers := by
  unfold connectDropExisting
  repeat' split
  all_goals simp [closeSocket, setSockState]

/-- `connect` never mutates the retry counter (only the retry callback and
`onopen` do). -/
theorem connectEvent_attempts (dev probe : Bool) (fb : Option (List Json)) (w : World) :
    (connectEvent dev probe fb w).reconnectAttempts = w.reconnectAttempts := by
  simp only [connectEvent]
  split_ifs <;> simp

/-- `connect` never sends a message (only `onopen` and `requestUpdate` do). -/
theorem connectEvent_sent (dev probe : Bool) (fb : Option (List Json)) (w : World) :
    (connectEvent dev probe fb w).sent = w.sent := by
  simp only [connectEvent]
  split_ifs <;> simp

/-! ### Claim theorems -/

/-- C9: after a successful scan trigger, `handleScan` issues exactly three
staggered snapshot-refresh requests, at +1 s, +3 s and +6 s after the trigger
(nested delays of 1000 ms, 2000 ms and 3000 ms). -/
theorem c9_scan_refresh_schedule :
    fireTimes handleScanProg 0 = [1000, 3000, 6000]
    ∧ (fireTimes handleScanProg 0).length = 3
    ∧ handleScanProg
        = TimerProg.timeout 1000 (TimerProg.timeout 2000 (TimerProg.timeout 3000 TimerProg.done)) := by
  refine ⟨by decide, by decide, rfl⟩

/-- C5: ingesting any inbound stream payload that is not a JSON array
(unparseable, or parsed to a non-array value) leaves the entire hook state —
device snapshot and connection alike — unchanged. -/
theorem c5_malformed_payload_noop (w : World) (p : Option Json)
    (hp : ∀ xs, p ≠ some (Json.arr xs)) : onMessage p w = w := by
  unfold onMessage
  split
  · rfl
  · cases p with
    | none => rfl
    | some j =>
      cases j with
      | arr xs => exact absurd rfl (hp xs)
      | null => rfl
      | bool b => rfl
      | num n => rfl
      | str s => rfl
      | obj fields => rfl

/-- Witness for C5: an unparseable payload applied to the freshly mounted
state is a no-op. -/
theorem c5_malformed_payload_noop_witness : onMessage none initWorld = initWorld :=
  c5_malformed_payload_noop initWorld none (fun _ h => nomatch h)

/-- C3: `onopen` always resets the retry counter to 0 while mounted; in the
spec's scenario — two failures (counter 2), a successful open, one further
failure and its retry — the counter reads 1, not 3. -/
theorem c3_success_resets_counter :
    (∀ (w : World) (sid : Nat), w.isComponentMounted = true →
        (onOpen sid w).reconnectAttempts = 0)
    ∧ c3failTwice.reconnectAttempts = 2
    ∧ c3afterOpen.reconnectAttempts = 0
    ∧ c3afterOpen.connected = true
    ∧ c3afterThirdFail.reconnectAttempts = 1 := by
  refine ⟨?_, by decide, by decide, by decide, by decide⟩
  intro w sid hm
  simp [onOpen, setSockState, hm]

/-- Witness for C3 at a concrete reachable state with counter 2. -/
theorem c3_success_resets_counter_witness : (onOpen 0 c3failTwice).reconnectAttempts = 0 :=
  c3_success_resets_counter.1 c3failTwice 0 (by decide)

/-- C7: refuted on the code — stopping (unmounting) while a connection attempt
is in flight leaves the 10 s connection-establish timer pending and the
CONNECTING socket unclosed; only the retry timer and the periodic interval are
cancelled. -/
theorem c7_stop_leaves_pending_timer :
    (cleanup wConnecting).connTimeouts = [0]
    ∧ sockStateOf (cleanup wConnecting) 0 = SockState.connecting
    ∧ (cleanup wConnecting).retryTimers = []
    ∧ (cleanup wConnecting).reconnectTimeoutRef = none
    ∧ (cleanup wConnecting).checkIntervalActive = false
    ∧ (cleanup wConnecting).socketRef = none := by decide

/-- C2 counterexample: in the fallback-active state (counter at the maximum,
disconnected, one fallback fetch done), a `requestUpdate` while the server is
still unreachable issues a second fallback fetch without the manager ever
leaving that state. -/
theorem c2_counterexample :
    wFallback.connected = false
    ∧ wFallback.reconnectAttempts = maxReconnectAttempts false
    ∧ wFallback.fallbackFetches = 1
    ∧ (requestUpdate false false none wFallback).world.connected = false
    ∧ (requestUpdate false false none wFallback).world.reconnectAttempts
        = maxReconnectAttempts false
    ∧ (requestUpdate false false none wFallback).world.fallbackFetches = 2 := by decide

/-- C2 as amended: after `maxAttempts` consecutive failures the manager is in
the fallback-active state with exactly one fallback fetch issued, no retry
timer pending and no socket, and — absent explicit refresh requests — it stays
there: periodic ticks and timer fires are no-ops. -/
theorem c2_fallback_once_then_quiescent :
    wFallback.reconnectAttempts = maxReconnectAttempts false
    ∧ wFallback.connected = false
    ∧ wFallback.fallbackFetches = 1
    ∧ wFallback.retryTimers = []
    ∧ wFallback.socketRef = none
    ∧ (∀ (p : Bool) (fb : Option (List Json)), periodicTick false p fb wFallback = wFallback)
    ∧ (∀ (tid : Nat) (p : Bool) (fb : Option (List Json)),
        fireRetry false tid p fb wFallback = wFallback) := by
  refine ⟨by decide, by decide, by decide, by decide, by decide, ?_, ?_⟩
  · intro p fb; rfl
  · intro tid p fb
    have h : wFallback.retryTimers = [] := by decide
    simp [fireRetry, h]

/-- C6 counterexample: in the fallback-active state the periodic check does
not re-probe or re-attempt anything, even when the server is reachable again —
the tick is the identity, no socket is created and the counter stays at the
maximum instead of being reset. -/
theorem c6_counterexample :
    wFallback.connected = false
    ∧ wFallback.reconnectAttempts = maxReconnectAttempts false
    ∧ periodicTick false true none wFallback = wFallback
    ∧ (periodicTick false true none wFallback).sockets = []
    ∧ (periodicTick false true none wFallback).reconnectAttempts
        = maxReconnectAttempts false := by
  refine ⟨by decide, by decide, rfl, by decide, by decide⟩

/-- C6 as amended: the periodic check is gated off once the counter reaches
the maximum, so fallback is left only through an explicit refresh request:
`requestUpdate` re-invokes `connect`, a positive probe opens a new socket, and
the counter is reset when that socket opens. -/
theorem c6_fallback_recovery_via_refresh :
    (∀ (p : Bool) (fb : Option (List Json)), periodicTick false p fb wFallback = wFallback)
    ∧ (requestUpdate false true none wFallback).connectCalled = true
    ∧ (requestUpdate false true none wFallback).world.socketRef = some 0
    ∧ sockStateOf (requestUpdate false true none wFallback).world 0 = SockState.connecting
    ∧ (onOpen 0 (requestUpdate false true none wFallback).world).reconnectAttempts = 0
    ∧ (onOpen 0 (requestUpdate false true none wFallback).world).connected = true := by
  refine ⟨fun p fb => rfl, by decide, by decide, by decide, by decide, by decide⟩

/-- C4 counterexample: with a CONNECTING socket (a reachable state right after
the mount `connect`), `requestUpdate` returns the failure indicator but does
not trigger any connection attempt — the state is untouched. -/
theorem c4_counterexample :
    sockStateOf wConnecting 0 = SockState.connecting
    ∧ wConnecting.socketRef = some 0
    ∧ (requestUpdate false true none wConnecting).result = false
    ∧ (requestUpdate false true none wConnecting).connectCalled = false
    ∧ (requestUpdate false true none wConnecting).world = wConnecting := by
  refine ⟨by decide, by decide, by decide, by decide, rfl⟩

/-- C4 as amended: `requestUpdate` returns the success indicator and sends one
refresh message exactly when the current socket is open; otherwise it returns
the failure indicator without blocking, and re-invokes `connect` exactly when
there is no socket or the socket is CLOSED (not while one is CONNECTING or
CLOSING). -/
theorem c4_refresh_sends_iff_open (dev p : Bool) (fb : Option (List Json)) (w : World) :
    (requestUpdate dev p fb w).result = sockRefOpen w
    ∧ (requestUpdate dev p fb w).connectCalled = sockRefClosedOrAbsent w
    ∧ (requestUpdate dev p fb w).world.sent.length
        = w.sent.length + (if sockRefOpen w = true then 1 else 0) := by
  unfold requestUpdate sockRefOpen sockRefClosedOrAbsent
  cases hs : w.socketRef with
  | none => simp [connectEvent_sent]
  | some sid =>
    by_cases h1 : sockStateOf w sid = SockState.opened
    · simp [h1]
    · by_cases h2 : sockStateOf w sid = SockState.closed
      · simp [h1, h2, connectEvent_sent]
      · simp [h1, h2]

/-- Whatever `connect` does, every pending retry timer afterwards is either a
survivor of the initial `clearTimeout` or the newly scheduled one, whose id is
the fresh `w.nextTimerId`. -/
theorem connectEvent_timers_sub (dev p : Bool) (fb : Option (List Json)) (w : World) :
    ∀ x ∈ (connectEvent dev p fb w).retryTimers,
      x ∈ (clearRetryTimer w).retryTimers ∨ x.1 = w.nextTimerId := by
  intro x hx
  unfold connectEvent at hx
  by_cases h1 : (clearRetryTimer w).isComponentMounted = false
  · rw [if_pos h1] at hx
    exact Or.inl hx
  · rw [if_neg h1] at hx
    by_cases h2 : sockRefOpen (clearRetryTimer w) = true
    · rw [if_pos h2] at hx
      exact Or.inl hx
    · rw [if_neg h2] at hx
      by_cases h3 : p = false
      · rw [if_pos h3] at hx
        rcases connectUnhealthy_timers_sub dev fb (clearRetryTimer w) x hx with h | h
        · exact Or.inl h
        · rw [clearRetryTimer_nextTimerId] at h
          exact Or.inr h
      · rw [if_neg h3] at hx
        rw [mkSocket_timers, connectDropExisting_timers] at hx
        exact Or.inl hx

/-- If the counter has reached the maximum, `connect` schedules nothing: the
pending retry timers can only shrink. -/
theorem connectEvent_no_sched_of_max (dev p : Bool) (fb : Option (List Json)) (w : World)
    (h : maxReconnectAttempts dev ≤ w.reconnectAttempts) :
    (connectEvent dev p fb w).retryTimers.length ≤ w.retryTimers.length := by
  have hc : maxReconnectAttempts dev ≤ (clearRetryTimer w).reconnectAttempts := by
    rw [clearRetryTimer_attempts]
    exact h
  unfold connectEvent
  by_cases h1 : (clearRetryTimer w).isComponentMounted = false
  · rw [if_pos h1]
    exact clearRetryTimer_timers_le w
  · rw [if_neg h1]
    by_cases h2 : sockRefOpen (clearRetryTimer w) = true
    · rw [if_pos h2]
      exact clearRetryTimer_timers_le w
    · rw [if_neg h2]
      by_cases h3 : p = false
      · rw [if_pos h3, connectUnhealthy_timers_of_ge dev fb _ hc]
        exact clearRetryTimer_timers_le w
      · rw [if_neg h3, mkSocket_timers, connectDropExisting_timers]
        exact clearRetryTimer_timers_le w

/-- `onclose` never mutates the retry counter. -/
theorem onClose_attempts (dev : Bool) (sid code : Nat) (reason : String)
    (fb : Option (List Json)) (w : World) :
    (onClose dev sid code reason fb w).reconnectAttempts = w.reconnectAttempts := by
  simp only [onClose]
  split_ifs <;> simp [setSockState]

/-- If the counter has reached the maximum, `onclose` schedules no retry. -/
theorem onClose_no_sched_of_max (dev : Bool) (sid code : Nat) (reason : String)
    (fb : Option (List Json)) (w : World)
    (h : maxReconnectAttempts dev ≤ w.reconnectAttempts) :
    (onClose dev sid code reason fb w).retryTimers.length ≤ w.retryTimers.length := by
  simp only [onClose]
  split_ifs with h1 h2 h3
  · simp [setSockState]
  · simp [setSockState]
  · exfalso
    dsimp only [setSockState] at h3
    omega
  · simp [setSockState]

/-- C1: the retry delay scheduled after the n-th consecutive failure (counter
reading n, 0-indexed, n below the maximum) is exactly
`min(initialDelay * 2^n, maxDelay)` on both failure paths — the negative
health probe inside `connect` and the unexpected stream close — with
`initialDelay` 1000 ms (2000 ms in development), `maxDelay` 30000 ms and
`maxAttempts` 5 (10 in development). -/
theorem c1_backoff_policy (dev : Bool) (n : Nat) (hn : n < maxReconnectAttempts dev) :
    backoffDelay dev n = min (initialReconnectDelay dev * 2 ^ n) 30000
    ∧ initialReconnectDelay dev = (if dev then 2000 else 1000)
    ∧ maxReconnectAttempts dev = (if dev then 10 else 5)
    ∧ (∀ (w : World) (sid code : Nat) (reason : String) (fb : Option (List Json)),
        w.isComponentMounted = true → w.reconnectAttempts = n →
        ¬(code = 1000 ∧ reason = "Component unmounted") →
        (onClose dev sid code reason fb w).retryTimers.map Prod.snd
          = w.retryTimers.map Prod.snd ++ [min (initialReconnectDelay dev * 2 ^ n) 30000])
    ∧ (∀ (w : World) (fb : Option (List Json)),
        w.isComponentMounted = true → w.reconnectAttempts = n →
        w.reconnectTimeoutRef = none → sockRefOpen w = false →
        (connectEvent dev false fb w).retryTimers.map Prod.snd
          = w.retryTimers.map Prod.snd ++ [min (initialReconnectDelay dev * 2 ^ n) 30000]) := by
  refine ⟨rfl, rfl, rfl, ?_, ?_⟩
  · intro w sid code reason fb hm hc hcr
    unfold onClose
    simp [setSockState, hm, hcr, hc, hn, scheduleRetry, backoffDelay, maxReconnectDelay]
  · intro w fb hm hc hrt hso
    have hclear : clearRetryTimer w = w := by simp [clearRetryTimer, hrt]
    have hnle : ¬ maxReconnectAttempts dev ≤ w.reconnectAttempts := by omega
    simp only [connectEvent, hclear, hm, hso, Bool.true_eq_false, Bool.false_eq_true,
      if_false, ite_false, ite_true]
    rw [connectUnhealthy, if_neg hnle, connectSched_timers_of_lt dev w (by omega) hm]
    simp [backoffDelay, maxReconnectDelay, hc]

/-- Witness for C1 at `n = 0` in the production profile, on both paths. -/
theorem c1_backoff_policy_witness :
    0 < maxReconnectAttempts false
    ∧ (onClose false 0 1006 "" none initWorld).retryTimers.map Prod.snd
        = initWorld.retryTimers.map Prod.snd ++ [min (initialReconnectDelay false * 2 ^ 0) 30000]
    ∧ (connectEvent false false none initWorld).retryTimers.map Prod.snd
        = initWorld.retryTimers.map Prod.snd ++ [min (initialReconnectDelay false * 2 ^ 0) 30000] :=
  ⟨by decide,
   (c1_backoff_policy false 0 (by decide)).2.2.2.1 initWorld 0 1006 "" none rfl rfl (by decide),
   (c1_backoff_policy false 0 (by decide)).2.2.2.2 initWorld none rfl rfl rfl rfl⟩

/-- C8 counterexample: a reachable state with two retry timers pending at
once — the tick's `connect` scheduled timer 0, then `onclose` of the dropped
socket scheduled timer 1 without cancelling timer 0, whose handle was
overwritten. -/
theorem c8_two_pending_timers :
    w8twoTimers.retryTimers = [(0, 1000), (1, 1000)]
    ∧ w8twoTimers.retryTimers.length = 2
    ∧ w8twoTimers.reconnectTimeoutRef = some 1 := by decide

/-- C8 as amended: each invocation of `connect` does first cancel the retry
timer whose handle is stored (that timer is never pending afterwards, the
fresh timer having a strictly larger id), and the single optional handle field
is the only storage — but this does not bound the pending timers to one,
because `onclose` schedules without cancelling (see the counterexample). -/
theorem c8_connect_cancels_prior_timer (dev p : Bool) (fb : Option (List Json)) (w : World)
    (tid : Nat) (h1 : w.reconnectTimeoutRef = some tid) (h2 : tid < w.nextTimerId) (d : Nat) :
    (tid, d) ∉ (connectEvent dev p fb w).retryTimers := by
  intro hmem
  rcases connectEvent_timers_sub dev p fb w (tid, d) hmem with h | h
  · simp [clearRetryTimer, h1, List.mem_filter] at h
  · simp only at h
    omega

/-- Witness for C8's amended statement at the concrete state holding the
handle of pending timer 0. -/
theorem c8_connect_cancels_prior_timer_witness :
    wHandle.reconnectTimeoutRef = some 0 ∧ 0 < wHandle.nextTimerId
    ∧ (0, 1000) ∉ (connectEvent false false none wHandle).retryTimers :=
  ⟨by decide, by decide,
   c8_connect_cancels_prior_timer false false none wHandle 0 (by decide) (by decide) 1000⟩

/-- C10 counterexample: a reachable execution in which the retry counter
reaches 6, strictly above the production maximum of 5 — three stale `onclose`
events stockpile uncancelled timers at counter 4 and each firing increments
unconditionally. -/
theorem c10_counter_exceeds_max :
    w10overflow.reconnectAttempts = 6
    ∧ maxReconnectAttempts false = 5
    ∧ maxReconnectAttempts false < w10overflow.reconnectAttempts := by decide

/-- C10 as amended: a retry is scheduled (the pending-timer count grows) only
in a state whose counter is strictly below the maximum, and neither scheduling
site changes the counter — but the counter itself is not bounded by the
maximum (see the counterexample), because several such timers can be pending
at once. -/
theorem c10_sched_only_below_max (dev : Bool) :
    (∀ (p : Bool) (fb : Option (List Json)) (w : World),
        w.retryTimers.length < (connectEvent dev p fb w).retryTimers.length →
        w.reconnectAttempts < maxReconnectAttempts dev
        ∧ (connectEvent dev p fb w).reconnectAttempts = w.reconnectAttempts)
    ∧ (∀ (sid code : Nat) (reason : String) (fb : Option (List Json)) (w : World),
        w.retryTimers.length < (onClose dev sid code reason fb w).retryTimers.length →
        w.reconnectAttempts < maxReconnectAttempts dev
        ∧ (onClose dev sid code reason fb w).reconnectAttempts = w.reconnectAttempts) := by
  constructor
  · intro p fb w hlen
    by_cases hlt : w.reconnectAttempts < maxReconnectAttempts dev
    · exact ⟨hlt, connectEvent_attempts dev p fb w⟩
    · have hle := connectEvent_no_sched_of_max dev p fb w (Nat.le_of_not_lt hlt)
      omega
  · intro sid code reason fb w hlen
    by_cases hlt : w.reconnectAttempts < maxReconnectAttempts dev
    · exact ⟨hlt, onClose_attempts dev sid code reason fb w⟩
    · have hle := onClose_no_sched_of_max dev sid code reason fb w (Nat.le_of_not_lt hlt)
      omega

/-- Witness for C10's amended statement at the mount `connect` with a failing
probe, which schedules the first retry. -/
theorem c10_sched_only_below_max_witness :
    initWorld.retryTimers.length < (connectEvent false false none initWorld).retryTimers.length
    ∧ initWorld.reconnectAttempts < maxReconnectAttempts false :=
  ⟨by decide, ((c10_sched_only_below_max false).1 false none initWorld (by decide)).1⟩

end LinkScope
